import Mathlib

/-!
Verification development for the FTS-to-YAML metadata converter
(`src/python/cms/fts2yaml.py` of the nsaph-cms repository).

The Python source is shallowly embedded: dynamically typed Python values
become `PyVal`, raised exceptions become `Except PyErr`, and each Python
function or method is translated into an executable Lean definition of the
same name (where Lean allows it).  Floating point widths that occur in FTS
files are short decimal literals; they are represented exactly by their
decimal text (integer part plus fraction-digit string), which coincides
with Python's shortest-repr printing for such values.
-/

/-- Python runtime values that flow through the parser: `None`, `int`,
`str` and `float` (the latter represented by its decimal text: integer
part and the fraction digits with trailing zeros stripped, `"0"` for an
integral value, matching `str()` of the floats that occur in FTS data). -/
inductive PyVal where
  | none
  | int (n : Int)
  | str (s : String)
  | num (i : Int) (frac : String)
deriving DecidableEq

/-- Python exceptions raised by the embedded code. -/
inductive PyErr where
  | typeError
  | attributeError
  | indexError
  | valueError (msg : String)
  | assertionError (msg : String)
  | exception (msg : String)
deriving DecidableEq

/-- Equality on `Except` results is decidable when it is on both sides. -/
instance exceptDecEq {ε α : Type} [DecidableEq ε] [DecidableEq α] :
    DecidableEq (Except ε α) := fun a b =>
  match a, b with
  | Except.ok x, Except.ok y =>
      if h : x = y then isTrue (by rw [h])
      else isFalse (fun hh => by cases hh; exact h rfl)
  | Except.error x, Except.error y =>
      if h : x = y then isTrue (by rw [h])
      else isFalse (fun hh => by cases hh; exact h rfl)
  | Except.ok _, Except.error _ => isFalse (fun hh => by cases hh)
  | Except.error _, Except.ok _ => isFalse (fun hh => by cases hh)

/-- Numeric value of a digit list, most significant first. -/
def digitsToNat (l : List Char) : Nat :=
  l.foldl (fun a c => a * 10 + (c.toNat - 48)) 0

/-- Python `int(s)` on an already stripped string: an optional sign
followed by at least one digit; anything else raises `ValueError`
(`Option.none` here). -/
def pyInt? (s : String) : Option Int :=
  match s.toList with
  | [] => Option.none
  | '-' :: rest =>
      if rest ≠ [] ∧ rest.all Char.isDigit then some (-(digitsToNat rest : Int))
      else Option.none
  | '+' :: rest =>
      if rest ≠ [] ∧ rest.all Char.isDigit then some (digitsToNat rest)
      else Option.none
  | l =>
      if l.all Char.isDigit then some (digitsToNat l)
      else Option.none

/-- Drops trailing `'0'` characters (normalisation used when printing the
short decimal floats that appear as FTS column widths). -/
def stripTrailingZeros (s : String) : String :=
  String.mk ((s.toList.reverse.dropWhile (· == '0')).reverse)

/-- Splitting a character list at every occurrence of a separator
character; executable counterpart of Python `str.split` with a one
character separator (empty pieces are kept, as in Python). -/
def splitCharsOn (sep : Char) : List Char → List (List Char)
  | [] => [[]]
  | c :: rest =>
      let r := splitCharsOn sep rest
      if c = sep then [] :: r
      else
        match r with
        | h :: t => (c :: h) :: t
        | [] => [[c]]

/-- Python `s.split(sep)` for a one character separator. -/
def strSplit (s : String) (sep : Char) : List String :=
  (splitCharsOn sep s.toList).map String.mk

/-- Python `s.upper()` (character-wise upper casing). -/
def strUpper (s : String) : String :=
  String.mk (s.toList.map Char.toUpper)

/-- Python `s.strip()`: removes whitespace from both ends. -/
def strTrim (s : String) : String :=
  String.mk ((((s.toList.dropWhile Char.isWhitespace).reverse).dropWhile
    Char.isWhitespace).reverse)

/-- Python `s.startswith(p)`. -/
def strStartsWith (s p : String) : Bool :=
  p.toList.isPrefixOf s.toList

/-- Python `s.replace(",", "")`: removes every comma. -/
def removeCommas (s : String) : String :=
  String.mk (s.toList.filter (fun c => ¬ c = ','))

/-- Python `float(s)` restricted to the plain decimals that occur in FTS
files (digits, optionally a point and more digits); scientific notation
does not occur in this data and is not modelled. -/
def pyFloat? (s : String) : Option PyVal :=
  let l := s.toList
  if l = [] then Option.none
  else
    let ip := l.takeWhile Char.isDigit
    let rest := l.dropWhile Char.isDigit
    match rest with
    | [] => some (PyVal.num (digitsToNat ip) "0")
    | '.' :: fp =>
        if ip = [] ∧ fp = [] then Option.none
        else if fp.all Char.isDigit then
          let f := stripTrailingZeros (String.mk fp)
          some (PyVal.num (digitsToNat ip) (if f = "" then "0" else f))
        else Option.none
    | _ => Option.none

/-- True when a fraction-digit string denotes zero. -/
def fracZero (f : String) : Bool :=
  f.toList.all (· == '0')

/-- Python `==` on the values above.  Python compares `int` and `float`
numerically, so `5 == 5.0` holds; values of unrelated types are unequal. -/
def pyEq : PyVal → PyVal → Bool
  | PyVal.none, PyVal.none => true
  | PyVal.int a, PyVal.int b => a == b
  | PyVal.str a, PyVal.str b => a == b
  | PyVal.num a f, PyVal.num b g => a == b && f == g
  | PyVal.int a, PyVal.num b g => a == b && fracZero g
  | PyVal.num a f, PyVal.int b => a == b && fracZero f
  | _, _ => false

/-- Python `str(v)`. -/
def pyToStr : PyVal → String
  | PyVal.none => "None"
  | PyVal.int n => toString n
  | PyVal.str s => s
  | PyVal.num i f => toString i ++ "." ++ f

/-- Python `v.upper()`: only strings have the method, every other value
raises `AttributeError`. -/
def pyUpper : PyVal → Except PyErr String
  | PyVal.str s => Except.ok (strUpper s)
  | _ => Except.error PyErr.attributeError

/-- Python `"{:d}".format(v)`: requires an integer. -/
def pyFormatD : PyVal → Except PyErr String
  | PyVal.int n => Except.ok (toString n)
  | _ => Except.error PyErr.typeError

/-- Python `a - b` for the operand shapes that occur in this program
(the `start` attribute is converted with `int`, so subtraction only ever
sees integers or `None`). -/
def pySub : PyVal → PyVal → Except PyErr PyVal
  | PyVal.int a, PyVal.int b => Except.ok (PyVal.int (a - b))
  | _, _ => Except.error PyErr.typeError

/-- Python `a + b` for the operand shapes that occur in this program:
integer plus integer, integer plus decimal (exact for the short decimals
of FTS widths), and string concatenation.  `None` operands raise
`TypeError`. -/
def pyAdd : PyVal → PyVal → Except PyErr PyVal
  | PyVal.int a, PyVal.int b => Except.ok (PyVal.int (a + b))
  | PyVal.int a, PyVal.num i f => Except.ok (PyVal.num (a + i) f)
  | PyVal.num i f, PyVal.int a => Except.ok (PyVal.num (i + a) f)
  | PyVal.str a, PyVal.str b => Except.ok (PyVal.str (a ++ b))
  | _, _ => Except.error PyErr.typeError

/-- Python `line[start:stop]` on strings (character slicing, clamped);
`stop = none` means "to the end of the line". -/
def pySlice (line : String) (start : Nat) (stop : Option Nat) : String :=
  match stop with
  | some e => String.mk ((line.toList.take e).drop start)
  | Option.none => String.mk (line.toList.drop start)

/-- Python `s.strip()` (whitespace at both ends). -/
def pyStrip (s : String) : String := strTrim s

/-- Constant `PG_SERIAL_TYPE` imported from `nsaph.pg_keywords`.
Modelled from the spec: the module is not under src; the spec calls it the
"already-SQL passthrough" type of the synthetic auto-increment record
column. -/
def PG_SERIAL_TYPE : String := "SERIAL"

/-- Constant `ORIGINAL_FILE_COLUMN` imported from `nsaph`.
Modelled from the spec: the module is not under src; the spec's fixed
primary keys list this provenance column under the name "FILE". -/
def ORIGINAL_FILE_COLUMN : String := "FILE"

/-- Embedding of class `FTSColumn` together with the extra attributes its
subclasses assign (`MedicareFTSColumn` adds `long_name`, `start`, `end`
-- called `stop` here -- and `AliasColumn` adds `target`).  Python objects
are open records, so one structure with optional subclass slots is used;
a slot is `none` exactly when the Python attribute does not exist. -/
structure FTSColumn where
  order : PyVal
  column : PyVal
  type : PyVal
  format : PyVal
  width : PyVal
  label : PyVal
  is_input : Bool := true
  long_name : Option PyVal := Option.none
  start : Option PyVal := Option.none
  stop : Option PyVal := Option.none
  target : Option PyVal := Option.none
deriving DecidableEq

/-- `FTSColumn.__init__`: stores the six parsed attributes and marks the
column as an input column.  The instance also records `_attrs`, the list
of public attribute names present at this point; because subclass
constructors assign their extra attributes only after this call, `_attrs`
is always the seven base attributes. -/
def mkFTSColumn (order column c_type c_format c_width label : PyVal) : FTSColumn :=
  { order := order, column := column, type := c_type, format := c_format,
    width := c_width, label := label, is_input := true }

/-- `FTSColumn.__eq__`: compares the attributes captured in `_attrs`,
i.e. the seven attributes assigned by `FTSColumn.__init__` (subclass-only
attributes such as `long_name`, `start`, `end` and `target` were assigned
after `_attrs` was computed and are therefore not compared). -/
def ftsEq (a b : FTSColumn) : Bool :=
  pyEq a.order b.order && pyEq a.column b.column && pyEq a.type b.type &&
  pyEq a.format b.format && pyEq a.width b.width && pyEq a.label b.label &&
  (a.is_input == b.is_input)

/-- `FTSColumn.__str__`: `"{:d}: {} [{}]".format(order, column, type)`. -/
def FTSColumn.toStr (c : FTSColumn) : Except PyErr String :=
  match pyFormatD c.order with
  | Except.error e => Except.error e
  | Except.ok o =>
      Except.ok (o ++ ": " ++ pyToStr c.column ++ " [" ++ pyToStr c.type ++ "]")

/-- `FTSColumn.analyze_format` for the case `self.format is None`:
`w = int(self.width)`; when the width is not integral the scale is read
from the literal text of the width (`str(self.width).split('.')[1]`). -/
def analyzeNoFormat : PyVal → Except PyErr (Bool × Option Nat × Option Int)
  | PyVal.int n => Except.ok (true, Option.none, some n)
  | PyVal.num i f =>
      if fracZero f then Except.ok (true, Option.none, some i)
      else
        match pyInt? f with
        | some m => Except.ok (true, some m.toNat, some i)
        | Option.none => Except.error (PyErr.valueError "invalid literal for int")
  | _ => Except.error PyErr.typeError

/-- `FTSColumn.analyze_format`: computes
`(can_be_numeric, scale, width)` from the format string, or from the
width attribute when no format is present.  NOTE: the source line
`scale = int(x(1))` calls the list `x` instead of indexing it, so any
format whose fractional part is non-empty raises `TypeError`. -/
def FTSColumn.analyze_format (c : FTSColumn) : Except PyErr (Bool × Option Nat × Option Int) :=
  match c.format with
  | PyVal.none => analyzeNoFormat c.width
  | PyVal.str fstr =>
      match fstr.toList with
      | [] => Except.error PyErr.indexError
      | ch :: _ =>
          let fmt := if ch.isDigit then fstr else String.mk (fstr.toList.drop 1)
          let can_be_numeric := ch.isDigit
          let x := strSplit fmt '.'
          let w : Option Int :=
            match x with
            | x0 :: _ =>
                if x0.toList ≠ [] ∧ x0.toList.all Char.isDigit
                then some (digitsToNat x0.toList) else Option.none
            | [] => Option.none
          match x with
          | _ :: x1 :: _ =>
              if x1 ≠ "" then Except.error PyErr.typeError
              else Except.ok (can_be_numeric, Option.none, w)
          | _ => Except.ok (can_be_numeric, Option.none, w)
  | _ => Except.error PyErr.typeError

/-- SQL types produced by `FTSColumn.to_sql_type`; the concrete spellings
(`PG_STR_TYPE` and friends) live in the external `nsaph.pg_keywords`
module, so the type is kept symbolic: `string w` is the varying-length
string type of width `w`, `decimal w s` the numeric type of precision `w`
and scale `s`. -/
inductive SqlType where
  | passthrough (t : String)
  | string (w : Int)
  | decimal (w : Int) (s : Nat)
  | integer
  | date
deriving DecidableEq

/-- `FTSColumn.to_sql_type`: maps the declared type token and the result
of `analyze_format` to an SQL type; formatting a `None` width with
`"{:d}"` raises `TypeError`, an unrecognised token raises a generic
exception. -/
def FTSColumn.to_sql_type (c : FTSColumn) : Except PyErr SqlType :=
  match pyUpper c.type with
  | Except.error e => Except.error e
  | Except.ok t =>
      if t = PG_SERIAL_TYPE then Except.ok (SqlType.passthrough t)
      else
        match c.analyze_format with
        | Except.error e => Except.error e
        | Except.ok (can_be_numeric, scale, wdt) =>
            if t = "CHAR" then
              match wdt with
              | some w => Except.ok (SqlType.string w)
              | Option.none => Except.error PyErr.typeError
            else if t = "NUM" then
              if ¬ can_be_numeric then
                match wdt with
                | some w => Except.ok (SqlType.string w)
                | Option.none => Except.error PyErr.typeError
              else
                match scale with
                | some s =>
                    match wdt with
                    | some w => Except.ok (SqlType.decimal w s)
                    | Option.none => Except.error PyErr.typeError
                | Option.none => Except.ok SqlType.integer
            else if t = "DATE" then Except.ok SqlType.date
            else Except.error (PyErr.exception ("Unexpected column type: " ++ t))

example : FTSColumn.to_sql_type
    (mkFTSColumn (PyVal.int 1) (PyVal.str "AMT") (PyVal.str "NUM")
      (PyVal.str "9.2") (PyVal.int 9) (PyVal.str "amount")) =
    Except.error PyErr.typeError := by decide

example : FTSColumn.to_sql_type
    (mkFTSColumn (PyVal.int 1) (PyVal.str "AMT") (PyVal.str "NUM")
      (PyVal.str "S9") (PyVal.int 9) (PyVal.str "amount")) =
    Except.ok (SqlType.string 9) := by decide

example : FTSColumn.to_sql_type
    (mkFTSColumn (PyVal.int 1) (PyVal.str "NAME") (PyVal.str "CHAR")
      (PyVal.str "128") (PyVal.int 128) (PyVal.str "name")) =
    Except.ok (SqlType.string 128) := by decide

example : FTSColumn.to_sql_type
    (mkFTSColumn (PyVal.int 1) (PyVal.str "W") (PyVal.str "NUM")
      PyVal.none (PyVal.num 8 "2") (PyVal.str "w")) =
    Except.ok (SqlType.decimal 8 2) := by decide

/-- `FTSColumn.to_fwf_column` builds this descriptor for the external
fixed-width reader; the structure comes from `nsaph_utils.utils.fwf`.
Modelled from the spec where the external class is concerned: the decode
descriptor entry carries name, type, order, start offset and the
(width, scale) pair. -/
structure FWFColumn where
  name : PyVal
  type : PyVal
  order : PyVal
  start : Int
  width : Option Int × Option Nat
deriving DecidableEq

/-- Modelled from the spec: `FWFColumn.end` of the external
`nsaph_utils` package -- the running byte offset advances by the column
width, so the end offset is `start + width` (a missing width would make
the external reader fail on `None` arithmetic). -/
def FWFColumn.stop (c : FWFColumn) : Except PyErr Int :=
  match c.width.1 with
  | some w => Except.ok (c.start + w)
  | Option.none => Except.error PyErr.typeError

/-- `FTSColumn.to_fwf_column`: runs `analyze_format` and wraps the result
together with the running start position into an `FWFColumn`. -/
def FTSColumn.to_fwf_column (c : FTSColumn) (pos : Int) : Except PyErr FWFColumn :=
  match c.analyze_format with
  | Except.error e => Except.error e
  | Except.ok (_, scale, w) =>
      Except.ok { name := c.column, type := c.type, order := c.order,
                  start := pos, width := (w, scale) }

/-- `AliasColumn.__init__`: copies order, type, format, width and label
from the source column, takes the alias as its name, and stores the
source column's name as `target`.  NOTE: `FTSColumn.__init__` sets
`is_input` to `True` and `AliasColumn` never overrides it. -/
def aliasColumn (aname : String) (c : FTSColumn) : FTSColumn :=
  { order := c.order, column := PyVal.str aname, type := c.type,
    format := c.format, width := c.width, label := c.label,
    is_input := true, target := some c.column }

/-- Annotation attached to a projected column dictionary under the
`source` key: a source type plus, for generated columns, the
database-side expression. -/
structure SourceAnn where
  srcType : String
  code : Option String
deriving DecidableEq

/-- Projection of one column into the YAML data model (`to_dict`):
the SQL type, the description, and the optional index / source
annotations added by `AliasColumn.to_dict`. -/
structure ColDict where
  typ : SqlType
  description : PyVal
  index : Option Bool
  source : Option SourceAnn
deriving DecidableEq

/-- `FTSColumn.to_dict` together with the `AliasColumn.to_dict`
override: the base dictionary holds the SQL type and the description;
an alias column (recognisable by its `target` attribute, i.e. by its
Python class) additionally sets `index = True` and the generated-value
source expression over its target. -/
def to_dict (c : FTSColumn) : Except PyErr ColDict :=
  match c.to_sql_type with
  | Except.error e => Except.error e
  | Except.ok t =>
      match c.target with
      | Option.none =>
          Except.ok { typ := t, description := c.label,
                      index := Option.none, source := Option.none }
      | some tgt =>
          Except.ok { typ := t, description := c.label, index := some true,
                      source := some (SourceAnn.mk "generated"
                        (some ("GENERATED ALWAYS AS (" ++ pyToStr tgt
                          ++ ") STORED"))) }

/-- `MedicareFTSColumn.__init__`: calls the base constructor with the
short name as the column name and no format, then assigns the long name,
the zero-based start offset (`start - 1`, a `TypeError` when the start
attribute failed to convert) and the end offset (`start + width`, again a
`TypeError` -- re-raised by the `try` block -- when either operand is
`None`). -/
def medicareColumn (order long_name short_name c_type start width desc : PyVal) :
    Except PyErr FTSColumn :=
  let base := mkFTSColumn order short_name c_type PyVal.none width desc
  match pySub start (PyVal.int 1) with
  | Except.error e => Except.error e
  | Except.ok st =>
      match pyAdd st width with
      | Except.error e => Except.error e
      | Except.ok en =>
          Except.ok { base with long_name := some long_name,
                                start := some st, stop := some en }

/-- `ColumnAttribute`: a span of a header line plus the conversion
function for the attribute parsed from that span. -/
structure ColumnAttribute where
  start : Nat
  stop : Option Nat
  conv : String → Option PyVal

/-- `ColumnAttribute.arg`: slices the line, strips it and converts it;
the surrounding `try`/`except: pass` turns any conversion failure into
`None`. -/
def ColumnAttribute.arg (a : ColumnAttribute) (line : String) : PyVal :=
  match a.conv (pyStrip (pySlice line a.start a.stop)) with
  | some v => v
  | Option.none => PyVal.none

/-- Conversion function for attribute index `i` of `FTSColumn` (and of
`MedicaidFTSColumn`, which inherits it): `int` for the order and width
attributes, `str` otherwise. -/
def medicaidConv (i : Nat) : String → Option PyVal :=
  if i = 0 ∨ i = 4 then fun s => (pyInt? s).map PyVal.int
  else fun s => some (PyVal.str s)

/-- Conversion function for attribute index `i` of `MedicareFTSColumn`:
`int` for order and start, `float` for width, `str` otherwise. -/
def medicareConv (i : Nat) : String → Option PyVal :=
  if i = 0 ∨ i = 4 then fun s => (pyInt? s).map PyVal.int
  else if i = 5 then fun s => pyFloat? s
  else fun s => some (PyVal.str s)

/-- Builds the attribute list of `ColumnReader.__init__`: each dash-run
field of the divider pattern yields a span starting at the running
offset `c` of length `len(field)`, and the offset advances by the field
length plus one separator character. -/
def buildAttrs (conv : Nat → String → Option PyVal) :
    List String → Nat → Nat → List ColumnAttribute
  | [], _, _ => []
  | fld :: rest, c, i =>
      { start := c, stop := some (c + fld.length), conv := conv i } ::
        buildAttrs conv rest (c + fld.length + 1) (i + 1)

/-- `self.attributes[-1].end = None`: the last attribute reads to the end
of the line. -/
def openLastAttr : List ColumnAttribute → List ColumnAttribute
  | [] => []
  | [a] => [{ a with stop := Option.none }]
  | a :: rest => a :: openLastAttr rest

/-- `ColumnReader.__init__`: splits the divider pattern on single spaces,
asserts that the number of dash-run fields equals the attribute count of
the column class, and builds the attribute spans. -/
def mkColumnReader (conv : Nat → String → Option PyVal) (nattrs : Nat)
    (pattern : String) : Except PyErr (List ColumnAttribute) :=
  let fields := strSplit pattern ' '
  if fields.length ≠ nattrs then
    Except.error (PyErr.assertionError "column count mismatch")
  else Except.ok (openLastAttr (buildAttrs conv fields 0 0))

/-- `MedicaidFTSColumn(*attrs)`: the base constructor stores the six
converted attribute values as they are (a failed conversion simply leaves
`None` in the corresponding attribute); a wrong attribute count would be
a `TypeError` of the call itself. -/
def medicaidCtor : List PyVal → Except PyErr FTSColumn
  | [o, c, t, f, w, l] => Except.ok (mkFTSColumn o c t f w l)
  | _ => Except.error PyErr.typeError

/-- `MedicareFTSColumn(*attrs)`: dispatches the seven converted values to
the Medicare constructor, whose offset arithmetic can raise. -/
def medicareCtor : List PyVal → Except PyErr FTSColumn
  | [o, ln, sn, t, st, w, d] => medicareColumn o ln sn t st w d
  | _ => Except.error PyErr.typeError

/-- `ColumnReader.read`: converts every attribute span of the line and
calls the column constructor on the resulting values. -/
def columnReaderRead (ctor : List PyVal → Except PyErr FTSColumn)
    (attrs : List ColumnAttribute) (line : String) : Except PyErr FTSColumn :=
  ctor (attrs.map (fun a => a.arg line))

/-- The element-wise reconciliation loop of `CMSFTS.read_file`:
`for i in range(len(columns)): if columns[i] != self.columns[i]: raise`.
The error message names the file and `str()` of the offending column (if
the column's order attribute is not an integer, formatting it raises a
`TypeError` instead). -/
def reconcileLoop (f : String) : List FTSColumn → List FTSColumn → Except PyErr Unit
  | [], _ => Except.ok ()
  | _, [] => Except.ok ()
  | c :: cs, d :: ds =>
      if ftsEq c d then reconcileLoop f cs ds
      else
        match c.toStr with
        | Except.error e => Except.error e
        | Except.ok s =>
            Except.error (PyErr.exception
              ("Reconciliation required: " ++ f ++ ", column: " ++ s))

/-- The reconciliation step at the end of `CMSFTS.read_file`: if no file
has been read yet the new column list becomes canonical; otherwise the
canonical list `self.columns` is kept and the newly read list must match
it in length and element-wise under `FTSColumn.__eq__`. -/
def reconcile (f : String) (canonical columns : List FTSColumn) :
    Except PyErr (List FTSColumn) :=
  if canonical.isEmpty then Except.ok columns
  else if columns.length ≠ canonical.length then
    Except.error (PyErr.exception
      ("Reconciliation required: " ++ f ++ ", number of columns"))
  else
    match reconcileLoop f columns canonical with
    | Except.error e => Except.error e
    | Except.ok () => Except.ok canonical

/-- `CMSFTS.add_record_column`: appends the synthetic auto-increment
RECORD column, marked as not being part of the input data. -/
def add_record_column (columns : List FTSColumn) : List FTSColumn :=
  columns ++ [{ mkFTSColumn (PyVal.int (columns.length + 1))
      (PyVal.str "RECORD") (PyVal.str PG_SERIAL_TYPE) PyVal.none PyVal.none
      (PyVal.str "Record number in the file") with is_input := false }]

/-- `CMSFTS.add_file_column`: appends the synthetic provenance column
holding the original file name, marked as not being part of the input
data. -/
def add_file_column (columns : List FTSColumn) : List FTSColumn :=
  columns ++ [{ mkFTSColumn (PyVal.int (columns.length + 1))
      (PyVal.str ORIGINAL_FILE_COLUMN) (PyVal.str "CHAR") (PyVal.str "128")
      (PyVal.int 128) (PyVal.str "RESDAC original file name") with
      is_input := false }]

/-- Metadata keys and the column list of one `CMSFTS` instance, as used
by the decode-descriptor projection. -/
structure CMSModel where
  table_type : String
  metadata : List (String × String)
  columns : List FTSColumn

/-- `CMSFTS.v2i`: strips the metadata value, removes thousands
separators and converts to `int`; called on `None` (an absent metadata
key fetched with `dict.get(key, None)`) it raises `AttributeError`
because `None` has no `strip` method. -/
def v2i : Option String → Except PyErr Int
  | Option.none => Except.error PyErr.attributeError
  | some s =>
      match pyInt? (removeCommas (strTrim s)) with
      | some n => Except.ok n
      | Option.none => Except.error (PyErr.valueError "invalid literal for int")

/-- Metadata key holding the record length. -/
def recordLenKey : String := "Exact File Record Length (Bytes in Variable Block)"

/-- Metadata key holding the file size. -/
def fileSizeKey : String := "Exact File Size in Bytes with 512 Blocksize"

/-- Metadata key holding the number of rows. -/
def rowsKey : String := "Exact File Quantity (Rows)"

/-- Decode descriptor returned by `CMSFTS.to_fwf_meta` (the `FWFMeta`
class of the external `nsaph_utils` package; modelled from the spec as a
record of the constructor arguments). -/
structure FWFMeta where
  path : String
  record_len : Int
  size : Int
  number_of_rows : Int
  columns : List FWFColumn
deriving DecidableEq

/-- The column walk of `CMSFTS.to_fwf_meta`: skips columns whose
`is_input` flag is false, converts every input column at the running
position and advances the position to the produced column's end. -/
def fwfColumns : List FTSColumn → Int → Except PyErr (List FWFColumn)
  | [], _ => Except.ok []
  | c :: rest, pos =>
      if ¬ c.is_input then fwfColumns rest pos
      else
        match c.to_fwf_column pos with
        | Except.error e => Except.error e
        | Except.ok fc =>
            match fc.stop with
            | Except.error e => Except.error e
            | Except.ok e =>
                match fwfColumns rest e with
                | Except.error er => Except.error er
                | Except.ok others => Except.ok (fc :: others)

/-- `CMSFTS.to_fwf_meta`: requires the record-length metadata key (an
`AssertionError` "Record Length is undefined" when absent), converts the
size and row-count metadata through `v2i` (note that `v2i` of an absent
key raises `AttributeError`), and walks the input columns from position
zero. -/
def to_fwf_meta (m : CMSModel) (data_path : String) : Except PyErr FWFMeta :=
  match m.metadata.lookup recordLenKey with
  | Option.none =>
      Except.error (PyErr.assertionError "Record Length is undefined")
  | some v =>
      match v2i (some v) with
      | Except.error e => Except.error e
      | Except.ok record_len =>
          match v2i (m.metadata.lookup fileSizeKey) with
          | Except.error e => Except.error e
          | Except.ok fsize =>
              match v2i (m.metadata.lookup rowsKey) with
              | Except.error e => Except.error e
              | Except.ok nrows =>
                  match fwfColumns m.columns 0 with
                  | Except.error e => Except.error e
                  | Except.ok cols =>
                      Except.ok { path := data_path, record_len := record_len,
                                  size := fsize, number_of_rows := nrows,
                                  columns := cols }

/-- Module constant `MEDICARE_KEY_COLUMNS`: canonical semantic keys of a
Medicare table together with the known synonym spellings of each (in the
insertion order of the Python dict, which the loops below iterate). -/
def MEDICARE_KEY_COLUMNS : List (String × List String) :=
  [("BENE_ID", []),
   ("STATE", ["STATE_CD"]),
   ("YEAR", ["RFRNC_YR", "MEDPAR_YR_NUM"]),
   ("ZIP", ["BENE_ZIP", "ZIP_CD"])]

/-- Candidate spellings for one semantic key: the key itself followed by
its synonyms (`candidates = [key] + MEDICARE_KEY_COLUMNS[key]`). -/
def keyCandidates (key : String) : List String :=
  match MEDICARE_KEY_COLUMNS.lookup key with
  | some syns => key :: syns
  | Option.none => [key]

/-- The `key_columns` dictionary of `MedicareFTS`: its key set is fixed
(exactly the four semantic keys), so it is embedded as a record with one
optional slot per key. -/
structure KeyColumns where
  bene_id : Option FTSColumn
  state : Option FTSColumn
  year : Option FTSColumn
  zip : Option FTSColumn
deriving DecidableEq

/-- `self.key_columns = {key: None for key in MEDICARE_KEY_COLUMNS}`. -/
def initKeyColumns : KeyColumns :=
  { bene_id := Option.none, state := Option.none,
    year := Option.none, zip := Option.none }

/-- `self.key_columns[key]` (every key that is looked up is one of the
four fixed keys). -/
def kcGet (kc : KeyColumns) (key : String) : Option FTSColumn :=
  if key = "BENE_ID" then kc.bene_id
  else if key = "STATE" then kc.state
  else if key = "YEAR" then kc.year
  else if key = "ZIP" then kc.zip
  else Option.none

/-- `self.key_columns[key] = column`. -/
def kcSet (kc : KeyColumns) (key : String) (c : FTSColumn) : KeyColumns :=
  if key = "BENE_ID" then { kc with bene_id := some c }
  else if key = "STATE" then { kc with state := some c }
  else if key = "YEAR" then { kc with year := some c }
  else if key = "ZIP" then { kc with zip := some c }
  else kc

/-- The inner loop of `MedicareFTS.check_key_columns` for one column:
walks the semantic keys in order; when the upper-cased column name is
among a key's candidate spellings, an already filled slot raises the
duplicate-candidate `ValueError`, otherwise the column is recorded for
that key and the walk continues with the updated dictionary. -/
def assignKey (cu : String) (c : FTSColumn) :
    List (String × List String) → KeyColumns → Except PyErr KeyColumns
  | [], kc => Except.ok kc
  | (key, syns) :: rest, kc =>
      if cu ∈ key :: syns then
        match kcGet kc key with
        | some _ =>
            Except.error (PyErr.valueError
              ("Duplicate column candidate for " ++ key))
        | Option.none => assignKey cu c rest (kcSet kc key c)
      else assignKey cu c rest kc

/-- One iteration of the outer loop of `check_key_columns`: upper-cases
the column name (an `AttributeError` when the name attribute is not a
string) and matches it against every key. -/
def scanOne (kc : KeyColumns) (c : FTSColumn) : Except PyErr KeyColumns :=
  match pyUpper c.column with
  | Except.error e => Except.error e
  | Except.ok cu => assignKey cu c MEDICARE_KEY_COLUMNS kc

/-- The outer loop of `check_key_columns` over all parsed columns. -/
def scanColumns (kc : KeyColumns) : List FTSColumn → Except PyErr KeyColumns
  | [] => Except.ok kc
  | c :: rest =>
      match scanOne kc c with
      | Except.error e => Except.error e
      | Except.ok kc1 => scanColumns kc1 rest

/-- The missing-key loops of `check_key_columns`: raises the
`ValueError` "Missing key column for table type" at the first listed key
whose slot is still empty. -/
def requireKeys (tt : String) (kc : KeyColumns) :
    List String → Except PyErr Unit
  | [] => Except.ok ()
  | key :: rest =>
      match kcGet kc key with
      | Option.none =>
          Except.error (PyErr.valueError
            ("Missing " ++ key ++ " column for " ++ tt))
      | some _ => requireKeys tt kc rest

/-- `MedicareFTS.check_key_columns`: fills the key dictionary from the
column list, then requires the identifier and year keys for every table
type, and all four keys for the `mbsf_ab`-prefixed table types. -/
def check_key_columns (tt : String) (columns : List FTSColumn) :
    Except PyErr KeyColumns :=
  match scanColumns initKeyColumns columns with
  | Except.error e => Except.error e
  | Except.ok kc =>
      match requireKeys tt kc ["BENE_ID", "YEAR"] with
      | Except.error e => Except.error e
      | Except.ok () =>
          if strStartsWith tt "mbsf_ab" then
            match requireKeys tt kc (MEDICARE_KEY_COLUMNS.map Prod.fst) with
            | Except.error e => Except.error e
            | Except.ok () => Except.ok kc
          else Except.ok kc

/-- Entries of the `indices` list of a table model: plain column names
and the composite primary-index descriptor appended by `add_indices`
(the Python dict `{"primary": {"columns": [...]}}`). -/
inductive IndexEntry where
  | name (s : String)
  | primary (columns : List String)
deriving DecidableEq

/-- Mutable state threaded through `MedicareFTS.add_indices`: the
accumulating primary-index column names, the instance's `indices` list
and the table's column list. -/
structure IdxState where
  p_idx : List String
  indices : List IndexEntry
  columns : List FTSColumn
deriving DecidableEq

/-- One iteration of `add_indices` for one semantic key: a bound key
contributes to the composite primary index (identifier and year always,
state for the `mbsf_ab` family); a column whose physical name equals the
canonical key name is indexed directly, any other bound column gets an
appended `AliasColumn` named after the canonical key. -/
def addIdxStep (tt : String) (kc : KeyColumns) (st : IdxState)
    (key : String) : Except PyErr IdxState :=
  match kcGet kc key with
  | Option.none => Except.ok st
  | some c =>
      let p :=
        if key = "BENE_ID" ∨ key = "YEAR" then st.p_idx ++ [key]
        else if strStartsWith tt "mbsf_ab" ∧ key = "STATE" then st.p_idx ++ [key]
        else st.p_idx
      match pyUpper c.column with
      | Except.error e => Except.error e
      | Except.ok cu =>
          if cu = key then
            Except.ok { st with p_idx := p,
                                indices := st.indices ++ [IndexEntry.name key] }
          else
            Except.ok { st with p_idx := p,
                                columns := st.columns ++ [aliasColumn key c] }

/-- The loop of `add_indices` over the semantic keys in order. -/
def addIdxGo (tt : String) (kc : KeyColumns) :
    List String → IdxState → Except PyErr IdxState
  | [], st => Except.ok st
  | key :: rest, st =>
      match addIdxStep tt kc st key with
      | Except.error e => Except.error e
      | Except.ok st1 => addIdxGo tt kc rest st1

/-- `MedicareFTS.add_indices`: processes every semantic key and finally
appends the composite primary-index descriptor to the `indices` list;
returns the updated `indices` and column lists. -/
def add_indices (tt : String) (kc : KeyColumns) (indices : List IndexEntry)
    (columns : List FTSColumn) : Except PyErr (List IndexEntry × List FTSColumn) :=
  match addIdxGo tt kc (MEDICARE_KEY_COLUMNS.map Prod.fst)
      { p_idx := [], indices := indices, columns := columns } with
  | Except.error e => Except.error e
  | Except.ok st =>
      Except.ok (st.indices ++ [IndexEntry.primary st.p_idx], st.columns)

/-- Class attribute `CMSFTS.common_indices`: the initial contents of the
class-level index list. -/
def commonIndices0 : List IndexEntry :=
  [IndexEntry.name "BENE_ID", IndexEntry.name ORIGINAL_FILE_COLUMN]

/-- Class attribute `MedicaidFTS.medicaid_indices`. -/
def medicaidIndices : List IndexEntry :=
  [IndexEntry.name "EL_DOB", IndexEntry.name "EL_SEX_CD",
   IndexEntry.name "EL_DOD", IndexEntry.name "EL_RACE_ETHNCY_CD"]

/-- The shared mutable state of one Python interpreter: the single list
object stored in the class attribute `CMSFTS.common_indices`.  Every
instance executes `self.indices = self.common_indices`, which stores a
reference to this one object, and every later index update
(`self.indices += ...`, `self.indices.append(...)`) mutates it in place,
so the `indices` attribute of every instance is this list. -/
structure World where
  common_indices : List IndexEntry
deriving DecidableEq

/-- The interpreter state before any instance has been constructed. -/
def initialWorld : World := { common_indices := commonIndices0 }

/-- Per-instance attributes of a `MedicaidFTS` object other than the
aliased `indices` list. -/
structure MedicaidInst where
  table_type : String
  pk : List String
deriving DecidableEq

/-- The `indices` attribute of any constructed instance: a reference to
the class-level list, so reading it yields the current contents of
`common_indices`. -/
def instIndices (w : World) (_inst : MedicaidInst) : List IndexEntry :=
  w.common_indices

/-- `MedicaidFTS.__init__` (including the `CMSFTS.__init__` it calls):
lower-cases the table type, asserts it is `ps` or `ip`, binds
`self.indices` to the class-level list and then extends that list in
place with the Medicaid indices and the sub-type specific entries;
returns the mutated interpreter state and the instance. -/
def medicaidInit (w : World) (type_of_data : String) :
    Except PyErr (World × MedicaidInst) :=
  let tt := String.mk (type_of_data.toList.map Char.toLower)
  if ¬ (tt = "ps" ∨ tt = "ip") then
    Except.error (PyErr.assertionError "table type")
  else
    let w1 : World := { common_indices := w.common_indices ++ medicaidIndices }
    if tt = "ps" then
      let pk := ["MSIS_ID", "STATE_CD", "MAX_YR_DT"]
      let w2 : World := { common_indices :=
        w1.common_indices ++ pk.map IndexEntry.name ++
          [IndexEntry.name "EL_AGE_GRP_CD"] }
      Except.ok (w2, { table_type := tt, pk := pk })
    else
      let w2 : World := { common_indices := w1.common_indices ++
        [IndexEntry.name "MSIS_ID", IndexEntry.name "STATE_CD",
         IndexEntry.name "YR_NUM", IndexEntry.name "RECORD"] }
      Except.ok (w2, { table_type := tt, pk := ["FILE", "RECORD"] })

/-- Example parsed Medicare column BENE_ID (width 15, CHAR), used as a
concrete input in several witnesses. -/
def exBene : FTSColumn :=
  mkFTSColumn (PyVal.int 1) (PyVal.str "BENE_ID") (PyVal.str "CHAR")
    PyVal.none (PyVal.num 15 "0") (PyVal.str "Encrypted beneficiary id")

/-- Example parsed Medicare column RFRNC_YR (width 4, NUM): a year key
candidate whose physical name differs from the canonical key name. -/
def exYear : FTSColumn :=
  mkFTSColumn (PyVal.int 2) (PyVal.str "RFRNC_YR") (PyVal.str "NUM")
    PyVal.none (PyVal.num 4 "0") (PyVal.str "Reference year")

/-- Example parsed Medicare column ZIP_CD (width 9, CHAR): a zip key
candidate whose physical name differs from the canonical key name. -/
def exZip : FTSColumn :=
  mkFTSColumn (PyVal.int 3) (PyVal.str "ZIP_CD") (PyVal.str "CHAR")
    PyVal.none (PyVal.num 9 "0") (PyVal.str "Zip code")

/-- Example parsed Medicare column STATE_CD (width 2, CHAR). -/
def exState : FTSColumn :=
  mkFTSColumn (PyVal.int 4) (PyVal.str "STATE_CD") (PyVal.str "CHAR")
    PyVal.none (PyVal.num 2 "0") (PyVal.str "State code")

/-- Example second zip candidate BENE_ZIP, used to trigger the
duplicate-candidate error. -/
def exZip2 : FTSColumn :=
  mkFTSColumn (PyVal.int 5) (PyVal.str "BENE_ZIP") (PyVal.str "CHAR")
    PyVal.none (PyVal.num 9 "0") (PyVal.str "Beneficiary zip")

/-- C1.  The claim says that a NUM column with a digit-leading format
carrying a non-empty fractional part (such as "9.2") is mapped to
decimal(9,2).  The code cannot do this: `analyze_format` executes
`scale = int(x(1))`, calling the split list instead of indexing it, so
`to_sql_type` raises `TypeError` for every such format.  The other two
parts of the claim hold: a NUM column with a flag-leading format "S9"
yields string(9) and a CHAR column with format "128" yields string(128). -/
theorem c1_format_decimal_bug :
    FTSColumn.to_sql_type (mkFTSColumn (PyVal.int 1) (PyVal.str "AMT")
        (PyVal.str "NUM") (PyVal.str "9.2") (PyVal.int 9)
        (PyVal.str "amount")) = Except.error PyErr.typeError ∧
    FTSColumn.to_sql_type (mkFTSColumn (PyVal.int 1) (PyVal.str "PCT")
        (PyVal.str "CHAR") (PyVal.str "9.2") (PyVal.int 9)
        (PyVal.str "percent")) = Except.error PyErr.typeError ∧
    FTSColumn.to_sql_type (mkFTSColumn (PyVal.int 2) (PyVal.str "CNT")
        (PyVal.str "NUM") (PyVal.str "S9") (PyVal.int 9)
        (PyVal.str "count")) = Except.ok (SqlType.string 9) ∧
    FTSColumn.to_sql_type (mkFTSColumn (PyVal.int 3) (PyVal.str "NAME")
        (PyVal.str "CHAR") (PyVal.str "128") (PyVal.int 128)
        (PyVal.str "name")) = Except.ok (SqlType.string 128) := by
  refine ⟨by decide, ?_, by decide, by decide⟩
  decide

/-- C3 counterexample.  The claim says two Medicare columns differing in
a public field -- in particular long name, start offset or end offset --
are unequal.  In the code `_attrs` is captured by `FTSColumn.__init__`
before `MedicareFTSColumn.__init__` assigns those fields, so two columns
built by the Medicare constructor that differ exactly in long name,
start and end still compare equal. -/
theorem c3_equality_counterexample :
    ∃ m1 m2 : FTSColumn,
      medicareColumn (PyVal.int 5) (PyVal.str "BENE_RACE")
        (PyVal.str "RACE") (PyVal.str "CHAR") (PyVal.int 11)
        (PyVal.num 1 "0") (PyVal.str "race") = Except.ok m1 ∧
      medicareColumn (PyVal.int 5) (PyVal.str "RACE_LONG")
        (PyVal.str "RACE") (PyVal.str "CHAR") (PyVal.int 12)
        (PyVal.num 1 "0") (PyVal.str "race") = Except.ok m2 ∧
      ftsEq m1 m2 = true ∧
      m1.long_name ≠ m2.long_name ∧ m1.start ≠ m2.start ∧
      m1.stop ≠ m2.stop := by
  refine ⟨_, _, rfl, rfl, by decide, by decide, by decide, by decide⟩

/-- C3 amended.  Structural equality between two column definitions
holds iff the seven attributes recorded at base initialisation match:
order, name, type, format, width, label and the is-input flag; the
attributes assigned by subclass constructors (long name, start and end
offsets, alias target) are not compared. -/
theorem c3_equality_amended (a b : FTSColumn) :
    ftsEq a b = true ↔
      (pyEq a.order b.order = true ∧ pyEq a.column b.column = true ∧
       pyEq a.type b.type = true ∧ pyEq a.format b.format = true ∧
       pyEq a.width b.width = true ∧ pyEq a.label b.label = true ∧
       a.is_input = b.is_input) := by
  simp [ftsEq, Bool.and_eq_true, and_assoc]

/-- C6.  The claim says the decode descriptor is produced whenever the
record-length key is present, with absent size and row-count keys
carried through as absent.  In the code `v2i` is applied to
`metadata.get(key, None)`, and `None.strip()` raises `AttributeError`,
so a model with a record length but no size key fails instead of
producing a descriptor.  The first half of the claim holds: a missing
record-length key raises the "Record Length is undefined" assertion, and
with all three keys present the descriptor is produced. -/
theorem c6_fwf_meta_bug :
    to_fwf_meta (CMSModel.mk "mbsf_ab" [(recordLenKey, "1,234")] [])
        "data.dat" = Except.error PyErr.attributeError ∧
    to_fwf_meta (CMSModel.mk "mbsf_ab" [] []) "data.dat" =
      Except.error (PyErr.assertionError "Record Length is undefined") ∧
    to_fwf_meta (CMSModel.mk "mbsf_ab"
        [(recordLenKey, "1,234"), (fileSizeKey, "100"), (rowsKey, "2")] [])
        "data.dat" =
      Except.ok (FWFMeta.mk "data.dat" 1234 100 2 []) := by
  refine ⟨by decide, by decide, by decide⟩

/-- C10.  The claim says constructing and running one parser instance
leaves another instance's index list unchanged.  In the code
`self.indices = self.common_indices` stores a reference to the mutable
class-level list and `+=`/`append` mutate it in place, so constructing a
`ps` Medicaid parser pollutes the list every other instance reads: an
`ip` instance constructed afterwards sees the ps-only index MAX_YR_DT,
which a fresh `ip` instance never has. -/
theorem c10_shared_indices_bug :
    ∃ (w1 w2 w3 : World) (i1 i2 i3 : MedicaidInst),
      medicaidInit initialWorld "ps" = Except.ok (w1, i1) ∧
      medicaidInit w1 "ip" = Except.ok (w2, i2) ∧
      medicaidInit initialWorld "ip" = Except.ok (w3, i3) ∧
      instIndices w1 i1 ≠ instIndices initialWorld i1 ∧
      IndexEntry.name "MAX_YR_DT" ∈ instIndices w2 i2 ∧
      IndexEntry.name "MAX_YR_DT" ∉ instIndices w3 i3 ∧
      instIndices w2 i2 ≠ instIndices w3 i3 := by
  refine ⟨_, _, _, _, _, _, rfl, rfl, rfl, by decide, by decide, by decide,
    by decide⟩

/-- Element-wise column-list equality under `FTSColumn.__eq__` (false
when the lengths differ). -/
def listFtsEq : List FTSColumn → List FTSColumn → Bool
  | [], [] => true
  | a :: as_, b :: bs => ftsEq a b && listFtsEq as_ bs
  | _, _ => false

lemma listFtsEq_length {a b : List FTSColumn} (h : listFtsEq a b = true) :
    a.length = b.length := by
  induction a generalizing b with
  | nil => cases b with
    | nil => rfl
    | cons x xs => simp [listFtsEq] at h
  | cons x xs ih =>
      cases b with
      | nil => simp [listFtsEq] at h
      | cons y ys =>
          simp only [listFtsEq, Bool.and_eq_true] at h
          simp [ih h.2]

lemma reconcileLoop_ok_of_eq (f : String) {a b : List FTSColumn}
    (h : listFtsEq a b = true) : reconcileLoop f a b = Except.ok () := by
  induction a generalizing b with
  | nil => cases b <;> simp [reconcileLoop]
  | cons x xs ih =>
      cases b with
      | nil => simp [listFtsEq] at h
      | cons y ys =>
          simp only [listFtsEq, Bool.and_eq_true] at h
          simp [reconcileLoop, h.1, ih h.2]

lemma reconcileLoop_error_at_mismatch (f s : String)
    {pre1 pre2 post1 post2 : List FTSColumn} {c d : FTSColumn}
    (hpre : listFtsEq pre1 pre2 = true) (hne : ftsEq c d = false)
    (hs : c.toStr = Except.ok s) :
    reconcileLoop f (pre1 ++ c :: post1) (pre2 ++ d :: post2) =
      Except.error (PyErr.exception
        ("Reconciliation required: " ++ f ++ ", column: " ++ s)) := by
  induction pre1 generalizing pre2 with
  | nil =>
      cases pre2 with
      | nil => simp [reconcileLoop, hne, hs]
      | cons y ys => simp [listFtsEq] at hpre
  | cons x xs ih =>
      cases pre2 with
      | nil => simp [listFtsEq] at hpre
      | cons y ys =>
          simp only [listFtsEq, Bool.and_eq_true] at hpre
          simp [reconcileLoop, hpre.1, ih hpre.2]

/-- C2.  Once a parser instance holds a canonical (non-empty) column
list, reconciling a newly read column list against it behaves as
claimed: a list that matches element-wise under structural equality is a
no-op that keeps the canonical list; a list of a different length raises
the reconciliation error naming the file; a list that first differs at
some position raises the reconciliation error naming the file and the
offending column. -/
theorem c2_reconciliation (f : String) (canonical columns : List FTSColumn)
    (hne : canonical ≠ []) :
    (listFtsEq columns canonical = true →
      reconcile f canonical columns = Except.ok canonical) ∧
    (columns.length ≠ canonical.length →
      reconcile f canonical columns =
        Except.error (PyErr.exception
          ("Reconciliation required: " ++ f ++ ", number of columns"))) ∧
    (∀ (pre1 pre2 post1 post2 : List FTSColumn) (c d : FTSColumn) (s : String),
      columns = pre1 ++ c :: post1 → canonical = pre2 ++ d :: post2 →
      listFtsEq pre1 pre2 = true → ftsEq c d = false →
      c.toStr = Except.ok s →
      columns.length = canonical.length →
      reconcile f canonical columns =
        Except.error (PyErr.exception
          ("Reconciliation required: " ++ f ++ ", column: " ++ s))) := by
  have hempty : canonical.isEmpty = false := by
    cases canonical with
    | nil => exact absurd rfl hne
    | cons x xs => rfl
  refine ⟨?_, ?_, ?_⟩
  · intro heq
    have hlen := listFtsEq_length heq
    simp [reconcile, hempty, hlen, reconcileLoop_ok_of_eq f heq]
  · intro hlen
    simp [reconcile, hempty, hlen]
  · intro pre1 pre2 post1 post2 c d s hc hcan hpre hcd hs hlen
    subst hc; subst hcan
    simp [reconcile, hempty, hlen,
      reconcileLoop_error_at_mismatch f s hpre hcd hs]

/-- C2 witness: the three behaviours at concrete inputs.  `exBene` and a
variant differing only in its label reconcile into the column-mismatch
error; an empty second list gives the length error; the identical list
is a no-op. -/
theorem c2_reconciliation_witness :
    reconcile "a.fts" [exBene] [exBene] = Except.ok [exBene] ∧
    reconcile "b.fts" [exBene] [] =
      Except.error (PyErr.exception
        "Reconciliation required: b.fts, number of columns") ∧
    reconcile "c.fts" [exBene] [exYear] =
      Except.error (PyErr.exception
        "Reconciliation required: c.fts, column: 2: RFRNC_YR [NUM]") := by
  refine ⟨?_, ?_, ?_⟩
  · exact (c2_reconciliation "a.fts" [exBene] [exBene] (by decide)).1
      (by decide)
  · exact (c2_reconciliation "b.fts" [exBene] [] (by decide)).2.1 (by decide)
  · exact (c2_reconciliation "c.fts" [exBene] [exYear] (by decide)).2.2
      [] [] [] [] exYear exBene "2: RFRNC_YR [NUM]" rfl rfl (by decide)
      (by decide) (by decide) (by decide)

/-- C7.  For a finalized model whose column list is three input columns
of integer widths 1, 5 and 9 followed by one synthetic (non-input)
column, and whose metadata converts successfully, the decode descriptor
holds exactly the three input columns, at start offsets 0, 1 and 6 with
end offsets 1, 6 and 15; the synthetic column contributes nothing. -/
theorem c7_decode_offsets (m : CMSModel) (path : String)
    (c1 c2 c3 c4 : FTSColumn) (b1 b2 b3 : Bool)
    (s1 s2 s3 : Option Nat) (r1 : String) (n1 n2 n3 : Int)
    (hcols : m.columns = [c1, c2, c3, c4])
    (h1i : c1.is_input = true) (h2i : c2.is_input = true)
    (h3i : c3.is_input = true) (h4i : c4.is_input = false)
    (ha1 : c1.analyze_format = Except.ok (b1, s1, some 1))
    (ha2 : c2.analyze_format = Except.ok (b2, s2, some 5))
    (ha3 : c3.analyze_format = Except.ok (b3, s3, some 9))
    (hk : m.metadata.lookup recordLenKey = some r1)
    (hv1 : v2i (some r1) = Except.ok n1)
    (hv2 : v2i (m.metadata.lookup fileSizeKey) = Except.ok n2)
    (hv3 : v2i (m.metadata.lookup rowsKey) = Except.ok n3) :
    to_fwf_meta m path =
      Except.ok (FWFMeta.mk path n1 n2 n3
        [FWFColumn.mk c1.column c1.type c1.order 0 (some 1, s1),
         FWFColumn.mk c2.column c2.type c2.order 1 (some 5, s2),
         FWFColumn.mk c3.column c3.type c3.order 6 (some 9, s3)]) ∧
    (∀ cols : List FWFColumn,
      to_fwf_meta m path =
        Except.ok (FWFMeta.mk path n1 n2 n3 cols) →
      cols.map FWFColumn.start = [0, 1, 6] ∧
      cols.map FWFColumn.stop =
        [Except.ok 1, Except.ok 6, Except.ok 15] ∧
      cols.length = 3) := by
  have hmain : to_fwf_meta m path =
      Except.ok (FWFMeta.mk path n1 n2 n3
        [FWFColumn.mk c1.column c1.type c1.order 0 (some 1, s1),
         FWFColumn.mk c2.column c2.type c2.order 1 (some 5, s2),
         FWFColumn.mk c3.column c3.type c3.order 6 (some 9, s3)]) := by
    simp [to_fwf_meta, hk, hv1, hv2, hv3, hcols, fwfColumns,
      FTSColumn.to_fwf_column, ha1, ha2, ha3, h1i, h2i, h3i, h4i,
      FWFColumn.stop]
  refine ⟨hmain, ?_⟩
  intro cols hcols'
  rw [hmain] at hcols'
  have : cols = [FWFColumn.mk c1.column c1.type c1.order 0 (some 1, s1),
      FWFColumn.mk c2.column c2.type c2.order 1 (some 5, s2),
      FWFColumn.mk c3.column c3.type c3.order 6 (some 9, s3)] := by
    have h1 := congrArg (fun r => match r with
      | Except.ok (mt : FWFMeta) => mt.columns
      | Except.error _ => []) hcols'
    simpa using h1.symm
  subst this
  refine ⟨rfl, ?_, rfl⟩
  simp [FWFColumn.stop]

/-- Concrete input column of width 1 for the C7 witness. -/
def fwfColA : FTSColumn :=
  mkFTSColumn (PyVal.int 1) (PyVal.str "A") (PyVal.str "CHAR")
    PyVal.none (PyVal.int 1) (PyVal.str "a")

/-- Concrete input column of width 5 for the C7 witness. -/
def fwfColB : FTSColumn :=
  mkFTSColumn (PyVal.int 2) (PyVal.str "B") (PyVal.str "CHAR")
    PyVal.none (PyVal.int 5) (PyVal.str "b")

/-- Concrete input column of width 9 for the C7 witness. -/
def fwfColC : FTSColumn :=
  mkFTSColumn (PyVal.int 3) (PyVal.str "C") (PyVal.str "CHAR")
    PyVal.none (PyVal.int 9) (PyVal.str "c")

/-- Concrete synthetic (non-input) record column for the C7 witness. -/
def fwfColD : FTSColumn :=
  { mkFTSColumn (PyVal.int 4) (PyVal.str "RECORD")
      (PyVal.str PG_SERIAL_TYPE) PyVal.none PyVal.none
      (PyVal.str "r") with is_input := false }

/-- Concrete finalized model for the C7 witness. -/
def fwfDemoModel : CMSModel :=
  CMSModel.mk "medpar"
    [(recordLenKey, "15"), (fileSizeKey, "150"), (rowsKey, "10")]
    [fwfColA, fwfColB, fwfColC, fwfColD]

/-- C7 witness: a concrete model with input widths 1, 5, 9 and one
trailing synthetic column produces exactly the claimed offsets. -/
theorem c7_decode_offsets_witness :
    to_fwf_meta fwfDemoModel "d.dat" =
      Except.ok (FWFMeta.mk "d.dat" 15 150 10
        [FWFColumn.mk (PyVal.str "A") (PyVal.str "CHAR") (PyVal.int 1) 0
           (some 1, Option.none),
         FWFColumn.mk (PyVal.str "B") (PyVal.str "CHAR") (PyVal.int 2) 1
           (some 5, Option.none),
         FWFColumn.mk (PyVal.str "C") (PyVal.str "CHAR") (PyVal.int 3) 6
           (some 9, Option.none)]) := by
  exact (c7_decode_offsets fwfDemoModel "d.dat" fwfColA fwfColB fwfColC
    fwfColD true true true Option.none Option.none Option.none "15" 15 150 10
    rfl rfl rfl rfl rfl (by decide) (by decide) (by decide) (by decide)
    (by decide) (by decide) (by decide)).1

/-- C9 counterexample.  The claim says a failed field conversion always
yields null and the line read still returns a column definition.  For
the Medicare column class this fails: with a divider of seven dash-run
fields, a line whose start-offset field is not numeric converts to
`None`, and `MedicareFTSColumn.__init__` then raises `TypeError` on
`None - 1`, aborting the read. -/
theorem c9_conversion_counterexample :
    ∃ attrs : List ColumnAttribute,
      mkColumnReader medicareConv 7 "--- ---- ---- ---- ---- ---- ----" =
        Except.ok attrs ∧
      columnReaderRead medicareCtor attrs
        "1   LONG SHRT NUM  XY   8.2  desc" = Except.error PyErr.typeError := by
  refine ⟨_, rfl, by decide⟩

/-- C9 amended.  A conversion failure on a stripped field yields `None`
for that attribute; the Medicaid-family constructor accepts any six
converted values, so its line read always returns a column definition;
the Medicare-family constructor, however, raises `TypeError` whenever
the start attribute converted to `None`, so those line reads abort. -/
theorem c9_conversion_amended :
    (∀ (a : ColumnAttribute) (line : String),
      a.conv (pyStrip (pySlice line a.start a.stop)) = Option.none →
      a.arg line = PyVal.none) ∧
    (∀ vals : List PyVal, vals.length = 6 →
      ∃ c, medicaidCtor vals = Except.ok c) ∧
    (∀ o ln sn t w d : PyVal,
      medicareCtor [o, ln, sn, t, PyVal.none, w, d] =
        Except.error PyErr.typeError) := by
  refine ⟨?_, ?_, ?_⟩
  · intro a line h
    simp [ColumnAttribute.arg, h]
  · intro vals h
    match vals, h with
    | [a, b, c, d, e, f], _ => exact ⟨_, rfl⟩
  · intro o ln sn t w d
    rfl

/-- C9 witness: the three amended behaviours at concrete inputs -- a
failing integer conversion yields `None`, a Medicaid line of six
unconvertible fields still builds a column, and a Medicare argument list
with a `None` start aborts with `TypeError`. -/
theorem c9_conversion_witness :
    ColumnAttribute.arg
      { start := 0, stop := some 3, conv := medicaidConv 0 } "XYZ" =
      PyVal.none ∧
    (∃ c, medicaidCtor [PyVal.none, PyVal.none, PyVal.none, PyVal.none,
      PyVal.none, PyVal.none] = Except.ok c) ∧
    medicareCtor [PyVal.int 1, PyVal.str "L", PyVal.str "S",
      PyVal.str "NUM", PyVal.none, PyVal.num 8 "2", PyVal.str "d"] =
      Except.error PyErr.typeError := by
  refine ⟨?_, ?_, ?_⟩
  · exact c9_conversion_amended.1
      { start := 0, stop := some 3, conv := medicaidConv 0 } "XYZ" (by decide)
  · exact c9_conversion_amended.2.1
      [PyVal.none, PyVal.none, PyVal.none, PyVal.none, PyVal.none,
       PyVal.none] (by decide)
  · exact c9_conversion_amended.2.2 (PyVal.int 1) (PyVal.str "L")
      (PyVal.str "S") (PyVal.str "NUM") (PyVal.num 8 "2") (PyVal.str "d")

/-- Post-processed column list of a Medicare file containing BENE_ID,
RFRNC_YR and ZIP_CD: the parsed columns followed by the synthetic
provenance and record columns. -/
def c8cols : List FTSColumn :=
  add_record_column (add_file_column [exBene, exYear, exZip])

/-- C8.  The claim says is-input is false exactly for the injected
columns -- record, file-name and alias columns -- and that no alias
column ever contributes a decode-descriptor entry.  The record and
file-name columns are indeed flagged false, but `AliasColumn.__init__`
inherits `is_input = True` from `FTSColumn.__init__` and never overrides
it, so on a Medicare table with a ZIP_CD column the injected ZIP alias
is an input column and lands in the decode descriptor. -/
theorem c8_alias_is_input_bug :
    (aliasColumn "ZIP" exZip).is_input = true ∧
    (add_file_column []).map FTSColumn.is_input = [false] ∧
    (add_record_column []).map FTSColumn.is_input = [false] ∧
    ∃ (kc : KeyColumns) (out : List IndexEntry × List FTSColumn)
      (meta : FWFMeta),
      scanColumns initKeyColumns c8cols = Except.ok kc ∧
      add_indices "medpar" kc commonIndices0 c8cols = Except.ok out ∧
      aliasColumn "ZIP" exZip ∈ out.2 ∧
      to_fwf_meta (CMSModel.mk "medpar"
        [(recordLenKey, "28"), (fileSizeKey, "280"), (rowsKey, "10")]
        out.2) "d.dat" = Except.ok meta ∧
      meta.columns.map FWFColumn.name =
        [PyVal.str "BENE_ID", PyVal.str "RFRNC_YR", PyVal.str "ZIP_CD",
         PyVal.str "YEAR", PyVal.str "ZIP"] := by
  refine ⟨by decide, by decide, by decide, _, _, _, rfl, rfl, by decide,
    rfl, by decide⟩

/-- True when the column's upper-cased name is among the candidate
spellings of the given semantic key (false as well when the name is not
a string, in which case the scan raises before matching anything). -/
def keyMatchB (key : String) (c : FTSColumn) : Bool :=
  match pyUpper c.column with
  | Except.ok cu => decide (cu ∈ keyCandidates key)
  | Except.error _ => false

lemma kcGet_bene (kc : KeyColumns) : kcGet kc "BENE_ID" = kc.bene_id := rfl

lemma kcGet_state (kc : KeyColumns) : kcGet kc "STATE" = kc.state := rfl

lemma kcGet_year (kc : KeyColumns) : kcGet kc "YEAR" = kc.year := rfl

lemma kcGet_zip (kc : KeyColumns) : kcGet kc "ZIP" = kc.zip := rfl

lemma assignKey_beneid (c : FTSColumn) (kc : KeyColumns) :
    assignKey "BENE_ID" c MEDICARE_KEY_COLUMNS kc =
      match kc.bene_id with
      | some _ => Except.error (PyErr.valueError
          "Duplicate column candidate for BENE_ID")
      | Option.none => Except.ok { kc with bene_id := some c } := rfl

lemma assignKey_state (c : FTSColumn) (kc : KeyColumns) :
    assignKey "STATE" c MEDICARE_KEY_COLUMNS kc =
      match kc.state with
      | some _ => Except.error (PyErr.valueError
          "Duplicate column candidate for STATE")
      | Option.none => Except.ok { kc with state := some c } := rfl

lemma assignKey_statecd (c : FTSColumn) (kc : KeyColumns) :
    assignKey "STATE_CD" c MEDICARE_KEY_COLUMNS kc =
      match kc.state with
      | some _ => Except.error (PyErr.valueError
          "Duplicate column candidate for STATE")
      | Option.none => Except.ok { kc with state := some c } := rfl

lemma assignKey_year (c : FTSColumn) (kc : KeyColumns) :
    assignKey "YEAR" c MEDICARE_KEY_COLUMNS kc =
      match kc.year with
      | some _ => Except.error (PyErr.valueError
          "Duplicate column candidate for YEAR")
      | Option.none => Except.ok { kc with year := some c } := rfl

lemma assignKey_rfrncyr (c : FTSColumn) (kc : KeyColumns) :
    assignKey "RFRNC_YR" c MEDICARE_KEY_COLUMNS kc =
      match kc.year with
      | some _ => Except.error (PyErr.valueError
          "Duplicate column candidate for YEAR")
      | Option.none => Except.ok { kc with year := some c } := rfl

lemma assignKey_medparyr (c : FTSColumn) (kc : KeyColumns) :
    assignKey "MEDPAR_YR_NUM" c MEDICARE_KEY_COLUMNS kc =
      match kc.year with
      | some _ => Except.error (PyErr.valueError
          "Duplicate column candidate for YEAR")
      | Option.none => Except.ok { kc with year := some c } := rfl

lemma assignKey_zipkey (c : FTSColumn) (kc : KeyColumns) :
    assignKey "ZIP" c MEDICARE_KEY_COLUMNS kc =
      match kc.zip with
      | some _ => Except.error (PyErr.valueError
          "Duplicate column candidate for ZIP")
      | Option.none => Except.ok { kc with zip := some c } := rfl

lemma assignKey_benezip (c : FTSColumn) (kc : KeyColumns) :
    assignKey "BENE_ZIP" c MEDICARE_KEY_COLUMNS kc =
      match kc.zip with
      | some _ => Except.error (PyErr.valueError
          "Duplicate column candidate for ZIP")
      | Option.none => Except.ok { kc with zip := some c } := rfl

lemma assignKey_zipcd (c : FTSColumn) (kc : KeyColumns) :
    assignKey "ZIP_CD" c MEDICARE_KEY_COLUMNS kc =
      match kc.zip with
      | some _ => Except.error (PyErr.valueError
          "Duplicate column candidate for ZIP")
      | Option.none => Except.ok { kc with zip := some c } := rfl

lemma assignKey_nomatch {cu : String} (c : FTSColumn) (kc : KeyColumns)
    (hb : ¬ cu ∈ ["BENE_ID"]) (hs : ¬ cu ∈ ["STATE", "STATE_CD"])
    (hy : ¬ cu ∈ ["YEAR", "RFRNC_YR", "MEDPAR_YR_NUM"])
    (hz : ¬ cu ∈ ["ZIP", "BENE_ZIP", "ZIP_CD"]) :
    assignKey cu c MEDICARE_KEY_COLUMNS kc = Except.ok kc := by
  simp only [List.mem_singleton, List.mem_cons, not_or,
    List.not_mem_nil, or_false] at hb hs hy hz
  simp [assignKey, MEDICARE_KEY_COLUMNS, hb, hs.1, hs.2, hy.1, hy.2.1,
    hy.2.2, hz.1, hz.2.1, hz.2.2]

lemma scanOne_zip_preserve {kc kc' : KeyColumns} {c : FTSColumn}
    (h : scanOne kc c = Except.ok kc')
    (hm : keyMatchB "ZIP" c = false) : kc'.zip = kc.zip := by
  unfold scanOne at h
  cases hu : pyUpper c.column with
  | error e => rw [hu] at h; cases h
  | ok cu =>
      rw [hu] at h
      dsimp only at h
      unfold keyMatchB at hm
      rw [hu] at hm
      simp only [keyCandidates, MEDICARE_KEY_COLUMNS, decide_eq_false_iff_not,
        List.lookup] at hm
      by_cases hb : cu ∈ (["BENE_ID"] : List String)
      · have : cu = "BENE_ID" := by simpa using hb
        subst this
        rw [assignKey_beneid] at h
        cases hslot : kc.bene_id with
        | none => rw [hslot] at h; cases h; rfl
        | some v => rw [hslot] at h; cases h
      · by_cases hst : cu ∈ (["STATE", "STATE_CD"] : List String)
        · have : cu = "STATE" ∨ cu = "STATE_CD" := by simpa using hst
          rcases this with h1 | h1 <;> subst h1
          · rw [assignKey_state] at h
            cases hslot : kc.state with
            | none => rw [hslot] at h; cases h; rfl
            | some v => rw [hslot] at h; cases h
          · rw [assignKey_statecd] at h
            cases hslot : kc.state with
            | none => rw [hslot] at h; cases h; rfl
            | some v => rw [hslot] at h; cases h
        · by_cases hyr : cu ∈ (["YEAR", "RFRNC_YR", "MEDPAR_YR_NUM"] : List String)
          · have : cu = "YEAR" ∨ cu = "RFRNC_YR" ∨ cu = "MEDPAR_YR_NUM" := by
              simpa using hyr
            rcases this with h1 | h1 | h1 <;> subst h1
            · rw [assignKey_year] at h
              cases hslot : kc.year with
              | none => rw [hslot] at h; cases h; rfl
              | some v => rw [hslot] at h; cases h
            · rw [assignKey_rfrncyr] at h
              cases hslot : kc.year with
              | none => rw [hslot] at h; cases h; rfl
              | some v => rw [hslot] at h; cases h
            · rw [assignKey_medparyr] at h
              cases hslot : kc.year with
              | none => rw [hslot] at h; cases h; rfl
              | some v => rw [hslot] at h; cases h
          · have hz : ¬ cu ∈ (["ZIP", "BENE_ZIP", "ZIP_CD"] : List String) := by
              intro hmem
              rcases (by simpa using hmem : cu = "ZIP" ∨ cu = "BENE_ZIP" ∨
                cu = "ZIP_CD") with h1 | h1 | h1 <;> subst h1 <;> simp at hm
            rw [assignKey_nomatch c kc hb hst hyr hz] at h
            cases h; rfl

lemma scanOne_zip_assign {kc kc' : KeyColumns} {c : FTSColumn}
    (h : scanOne kc c = Except.ok kc')
    (hm : keyMatchB "ZIP" c = true) : kc'.zip = some c := by
  unfold scanOne at h
  cases hu : pyUpper c.column with
  | error e => rw [hu] at h; cases h
  | ok cu =>
      rw [hu] at h
      dsimp only at h
      unfold keyMatchB at hm
      rw [hu] at hm
      simp only [keyCandidates, MEDICARE_KEY_COLUMNS, decide_eq_true_eq,
        List.lookup] at hm
      have : cu = "ZIP" ∨ cu = "BENE_ZIP" ∨ cu = "ZIP_CD" := by simpa using hm
      rcases this with h1 | h1 | h1 <;> subst h1
      · rw [assignKey_zipkey] at h
        cases hslot : kc.zip with
        | none => rw [hslot] at h; cases h; rfl
        | some v => rw [hslot] at h; cases h
      · rw [assignKey_benezip] at h
        cases hslot : kc.zip with
        | none => rw [hslot] at h; cases h; rfl
        | some v => rw [hslot] at h; cases h
      · rw [assignKey_zipcd] at h
        cases hslot : kc.zip with
        | none => rw [hslot] at h; cases h; rfl
        | some v => rw [hslot] at h; cases h

lemma scanColumns_zip_preserve {cols : List FTSColumn} {kc kc' : KeyColumns}
    (h : scanColumns kc cols = Except.ok kc')
    (hm : ∀ c ∈ cols, keyMatchB "ZIP" c = false) : kc'.zip = kc.zip := by
  induction cols generalizing kc with
  | nil => cases h; rfl
  | cons d ds ih =>
      unfold scanColumns at h
      cases hd : scanOne kc d with
      | error e => rw [hd] at h; cases h
      | ok kc1 =>
          rw [hd] at h
          have h1 := scanOne_zip_preserve hd (hm d (by simp))
          have h2 := ih h (fun c hc => hm c (by simp [hc]))
          rw [h2, h1]

lemma scanColumns_zip_unique {cols : List FTSColumn} {kc kc' : KeyColumns}
    {c : FTSColumn} (h : scanColumns kc cols = Except.ok kc')
    (huniq : cols.filter (keyMatchB "ZIP") = [c]) : kc'.zip = some c := by
  induction cols generalizing kc with
  | nil => simp at huniq
  | cons d ds ih =>
      unfold scanColumns at h
      cases hd : scanOne kc d with
      | error e => rw [hd] at h; cases h
      | ok kc1 =>
          rw [hd] at h
          by_cases hdm : keyMatchB "ZIP" d = true
          · rw [List.filter_cons_of_pos hdm] at huniq
            have hdc : d = c := by
              have := congrArg List.head? huniq
              simpa using this
            have hnil : ds.filter (keyMatchB "ZIP") = [] := by
              have := congrArg List.tail huniq
              simpa using this
            have hrest := scanColumns_zip_preserve h
              (fun x hx => by
                have := List.filter_eq_nil_iff.mp hnil x hx
                simpa using this)
            rw [hrest, scanOne_zip_assign hd hdm, hdc]
          · have hdm' : keyMatchB "ZIP" d = false := by
              simpa using hdm
            rw [List.filter_cons_of_neg (by simp [hdm'])] at huniq
            exact ih h huniq

lemma addIdxGo_cons {tt : String} {kc : KeyColumns} {key : String}
    {rest : List String} {st out : IdxState}
    (h : addIdxGo tt kc (key :: rest) st = Except.ok out) :
    ∃ st1, addIdxStep tt kc st key = Except.ok st1 ∧
      addIdxGo tt kc rest st1 = Except.ok out := by
  unfold addIdxGo at h
  cases hstep : addIdxStep tt kc st key with
  | error e => rw [hstep] at h; cases h
  | ok st1 => rw [hstep] at h; exact ⟨st1, rfl, h⟩

lemma addIdxStep_columns_mono {tt : String} {kc : KeyColumns} {st st1 : IdxState}
    {key : String} (h : addIdxStep tt kc st key = Except.ok st1) :
    ∃ ext, st1.columns = st.columns ++ ext := by
  unfold addIdxStep at h
  cases hk : kcGet kc key with
  | none => rw [hk] at h; cases h; exact ⟨[], by simp⟩
  | some c =>
      rw [hk] at h
      dsimp only at h
      cases hu : pyUpper c.column with
      | error e => rw [hu] at h; cases h
      | ok cu =>
          rw [hu] at h
          dsimp only at h
          by_cases hcu : cu = key
          · rw [if_pos hcu] at h; cases h; exact ⟨[], by simp⟩
          · rw [if_neg hcu] at h; cases h
            exact ⟨[aliasColumn key c], by simp⟩

lemma addIdxGo_columns_mono {tt : String} {kc : KeyColumns}
    {keys : List String} {st out : IdxState}
    (h : addIdxGo tt kc keys st = Except.ok out) :
    ∃ ext, out.columns = st.columns ++ ext := by
  induction keys generalizing st with
  | nil => cases h; exact ⟨[], by simp⟩
  | cons key rest ih =>
      obtain ⟨st1, hstep, hrest⟩ := addIdxGo_cons h
      obtain ⟨e1, he1⟩ := addIdxStep_columns_mono hstep
      obtain ⟨e2, he2⟩ := ih hrest
      exact ⟨e1 ++ e2, by rw [he2, he1, List.append_assoc]⟩

lemma addIdxStep_zip_alias {tt : String} {kc : KeyColumns} {st : IdxState}
    {c : FTSColumn} {cu : String} (hz : kc.zip = some c)
    (hu : pyUpper c.column = Except.ok cu) (hne : ¬ cu = "ZIP") :
    addIdxStep tt kc st "ZIP" =
      Except.ok { st with columns := st.columns ++ [aliasColumn "ZIP" c] } := by
  unfold addIdxStep
  rw [kcGet_zip, hz]
  dsimp only
  rw [hu]
  dsimp only
  rw [if_neg hne]
  have h1 : ¬ (("ZIP" : String) = "BENE_ID" ∨ ("ZIP" : String) = "YEAR") := by
    decide
  have h2 : ¬ ((strStartsWith tt "mbsf_ab") = true ∧ ("ZIP" : String) = "STATE") := by
    intro hx
    exact absurd hx.2 (by decide)
  rw [if_neg h1, if_neg h2]

/-- C4.  On a Medicare column list whose sole ZIP-synonym column is
literally named ZIP_CD, key detection binds that column to the canonical
semantic key ZIP, and `add_indices` appends an `AliasColumn` named ZIP
referencing ZIP_CD whose projected dictionary sets `index = true` and
the generated-value source expression over ZIP_CD. -/
theorem c4_zip_alias (cols : List FTSColumn) (kc : KeyColumns)
    (c : FTSColumn) (st0 : SqlType) (tt : String) (idx0 : List IndexEntry)
    (cols0 : List FTSColumn) (out : List IndexEntry × List FTSColumn)
    (hscan : scanColumns initKeyColumns cols = Except.ok kc)
    (huniq : cols.filter (keyMatchB "ZIP") = [c])
    (hname : c.column = PyVal.str "ZIP_CD")
    (hadd : add_indices tt kc idx0 cols0 = Except.ok out)
    (hsql : c.to_sql_type = Except.ok st0) :
    kc.zip = some c ∧
    aliasColumn "ZIP" c ∈ out.2 ∧
    to_dict (aliasColumn "ZIP" c) =
      Except.ok (ColDict.mk st0 c.label (some true)
        (some (SourceAnn.mk "generated"
          "GENERATED ALWAYS AS (ZIP_CD) STORED"))) := by
  have hzip : kc.zip = some c := scanColumns_zip_unique hscan huniq
  have hu : pyUpper c.column = Except.ok "ZIP_CD" := by rw [hname]; rfl
  constructor
  · exact hzip
  constructor
  · unfold add_indices at hadd
    cases hgo : addIdxGo tt kc (MEDICARE_KEY_COLUMNS.map Prod.fst)
        (IdxState.mk [] idx0 cols0) with
    | error e => rw [hgo] at hadd; cases hadd
    | ok stF =>
        rw [hgo] at hadd
        cases hadd
        have hkeys : MEDICARE_KEY_COLUMNS.map Prod.fst =
            ["BENE_ID", "STATE", "YEAR", "ZIP"] := rfl
        rw [hkeys] at hgo
        obtain ⟨st1, _, hgo1⟩ := addIdxGo_cons hgo
        obtain ⟨st2, _, hgo2⟩ := addIdxGo_cons hgo1
        obtain ⟨st3, _, hgo3⟩ := addIdxGo_cons hgo2
        obtain ⟨st4, hstep4, hgo4⟩ := addIdxGo_cons hgo3
        rw [addIdxStep_zip_alias hzip hu (by decide)] at hstep4
        cases hstep4
        cases hgo4
        simp
  · have htype : FTSColumn.to_sql_type (aliasColumn "ZIP" c) =
        FTSColumn.to_sql_type c := rfl
    unfold to_dict
    rw [htype, hsql]
    dsimp only [aliasColumn]
    rw [hname]
    rfl

/-- C4 witness: on the post-processed Medicare list containing BENE_ID,
RFRNC_YR and ZIP_CD, the scan binds ZIP to the ZIP_CD column and
`add_indices` appends the generated, indexed ZIP alias. -/
theorem c4_zip_alias_witness :
    ∃ (kc : KeyColumns) (out : List IndexEntry × List FTSColumn),
      scanColumns initKeyColumns c8cols = Except.ok kc ∧
      add_indices "medpar" kc commonIndices0 c8cols = Except.ok out ∧
      kc.zip = some exZip ∧
      aliasColumn "ZIP" exZip ∈ out.2 ∧
      to_dict (aliasColumn "ZIP" exZip) =
        Except.ok (ColDict.mk (SqlType.string 9) exZip.label (some true)
          (some (SourceAnn.mk "generated"
            "GENERATED ALWAYS AS (ZIP_CD) STORED"))) := by
  refine ⟨_, _, rfl, rfl, ?_⟩
  exact c4_zip_alias c8cols _ exZip (SqlType.string 9) "medpar"
    commonIndices0 c8cols _ rfl (by decide) rfl rfl (by decide)

lemma scanColumns_append_one {kc kc1 : KeyColumns} {xs : List FTSColumn}
    {c : FTSColumn} (h : scanColumns kc xs = Except.ok kc1) :
    scanColumns kc (xs ++ [c]) = scanOne kc1 c := by
  induction xs generalizing kc with
  | nil =>
      have hk : kc1 = kc := by
        unfold scanColumns at h
        exact (Except.ok.inj h).symm
      rw [hk]
      simp only [List.nil_append]
      unfold scanColumns
      cases hs : scanOne kc c with
      | error e => rfl
      | ok kc2 => rfl
  | cons d ds ih =>
      unfold scanColumns at h
      cases hd : scanOne kc d with
      | error e => rw [hd] at h; cases h
      | ok kcd =>
          rw [hd] at h
          show scanColumns kc (d :: (ds ++ [c])) = scanOne kc1 c
          unfold scanColumns
          rw [hd]
          exact ih h

lemma scanOne_duplicate {kc : KeyColumns} {c : FTSColumn} {cu k : String}
    (hu : pyUpper c.column = Except.ok cu)
    (hk : k ∈ MEDICARE_KEY_COLUMNS.map Prod.fst)
    (hc : cu ∈ keyCandidates k) (hdup : ¬ kcGet kc k = Option.none) :
    scanOne kc c = Except.error
      (PyErr.valueError ("Duplicate column candidate for " ++ k)) := by
  unfold scanOne
  rw [hu]
  dsimp only
  have hk' : k = "BENE_ID" ∨ k = "STATE" ∨ k = "YEAR" ∨ k = "ZIP" := by
    simpa [MEDICARE_KEY_COLUMNS] using hk
  rcases hk' with h1 | h1 | h1 | h1 <;> subst h1
  · have : cu = "BENE_ID" := by
      simpa [keyCandidates, MEDICARE_KEY_COLUMNS, List.lookup] using hc
    subst this
    rw [kcGet_bene] at hdup
    obtain ⟨v, hv⟩ := Option.ne_none_iff_exists'.mp hdup
    rw [assignKey_beneid, hv]; rfl
  · rw [kcGet_state] at hdup
    obtain ⟨v, hv⟩ := Option.ne_none_iff_exists'.mp hdup
    have : cu = "STATE" ∨ cu = "STATE_CD" := by
      simpa [keyCandidates, MEDICARE_KEY_COLUMNS, List.lookup] using hc
    rcases this with h2 | h2 <;> subst h2
    · rw [assignKey_state, hv]; rfl
    · rw [assignKey_statecd, hv]; rfl
  · rw [kcGet_year] at hdup
    obtain ⟨v, hv⟩ := Option.ne_none_iff_exists'.mp hdup
    have : cu = "YEAR" ∨ cu = "RFRNC_YR" ∨ cu = "MEDPAR_YR_NUM" := by
      simpa [keyCandidates, MEDICARE_KEY_COLUMNS, List.lookup] using hc
    rcases this with h2 | h2 | h2 <;> subst h2
    · rw [assignKey_year, hv]; rfl
    · rw [assignKey_rfrncyr, hv]; rfl
    · rw [assignKey_medparyr, hv]; rfl
  · rw [kcGet_zip] at hdup
    obtain ⟨v, hv⟩ := Option.ne_none_iff_exists'.mp hdup
    have : cu = "ZIP" ∨ cu = "BENE_ZIP" ∨ cu = "ZIP_CD" := by
      simpa [keyCandidates, MEDICARE_KEY_COLUMNS, List.lookup] using hc
    rcases this with h2 | h2 | h2 <;> subst h2
    · rw [assignKey_zipkey, hv]; rfl
    · rw [assignKey_benezip, hv]; rfl
    · rw [assignKey_zipcd, hv]; rfl

/-- C5.  Behaviour of `check_key_columns` on a scanned column list, as
claimed: a missing identifier (BENE_ID) or year key raises the
MissingKeyColumn `ValueError` naming the table type; for an
`mbsf_ab`-prefixed table type a missing state or zip key does the same;
and a second column matching an already bound key's candidate spellings
raises the DuplicateKeyCandidate `ValueError` for that key. -/
theorem c5_key_errors (tt : String) (cols : List FTSColumn)
    (kc : KeyColumns) (c : FTSColumn) (cu k : String)
    (hscan : scanColumns initKeyColumns cols = Except.ok kc) :
    (kc.bene_id = Option.none →
      check_key_columns tt cols =
        Except.error (PyErr.valueError
          ("Missing BENE_ID column for " ++ tt))) ∧
    (∀ b, kc.bene_id = some b → kc.year = Option.none →
      check_key_columns tt cols =
        Except.error (PyErr.valueError
          ("Missing YEAR column for " ++ tt))) ∧
    (∀ b y, strStartsWith tt "mbsf_ab" = true →
      kc.bene_id = some b → kc.year = some y → kc.state = Option.none →
      check_key_columns tt cols =
        Except.error (PyErr.valueError
          ("Missing STATE column for " ++ tt))) ∧
    (∀ b y st, strStartsWith tt "mbsf_ab" = true →
      kc.bene_id = some b → kc.year = some y → kc.state = some st →
      kc.zip = Option.none →
      check_key_columns tt cols =
        Except.error (PyErr.valueError
          ("Missing ZIP column for " ++ tt))) ∧
    (pyUpper c.column = Except.ok cu →
      k ∈ MEDICARE_KEY_COLUMNS.map Prod.fst →
      cu ∈ keyCandidates k → ¬ kcGet kc k = Option.none →
      check_key_columns tt (cols ++ [c]) =
        Except.error (PyErr.valueError
          ("Duplicate column candidate for " ++ k))) := by
  refine ⟨?_, ?_, ?_, ?_, ?_⟩
  · intro hb
    simp only [check_key_columns, hscan]
    simp only [requireKeys, kcGet_bene, hb]
    rfl
  · intro b hb hy
    simp only [check_key_columns, hscan]
    simp only [requireKeys, kcGet_bene, kcGet_year, hb, hy]
    rfl
  · intro b y htt hb hy hst
    simp only [check_key_columns, hscan]
    simp only [requireKeys, kcGet_bene, kcGet_year, hb, hy]
    simp only [htt, if_true, MEDICARE_KEY_COLUMNS, List.map]
    simp only [requireKeys, kcGet_bene, kcGet_state, hb, hst]
    rfl
  · intro b y st htt hb hy hst hz
    simp only [check_key_columns, hscan]
    simp only [requireKeys, kcGet_bene, kcGet_year, hb, hy]
    simp only [htt, if_true, MEDICARE_KEY_COLUMNS, List.map]
    simp only [requireKeys, kcGet_bene, kcGet_state, kcGet_year,
      kcGet_zip, hb, hy, hst, hz]
    rfl
  · intro hu hk hc hdup
    simp only [check_key_columns, scanColumns_append_one hscan,
      scanOne_duplicate hu hk hc hdup]

/-- C5 witness: the five error behaviours at concrete column lists --
missing BENE_ID, missing YEAR, missing STATE and missing ZIP for an
`mbsf_ab`-prefixed type, and a duplicate ZIP candidate. -/
theorem c5_key_errors_witness :
    check_key_columns "medpar" [] =
      Except.error (PyErr.valueError "Missing BENE_ID column for medpar") ∧
    check_key_columns "medpar" [exBene] =
      Except.error (PyErr.valueError "Missing YEAR column for medpar") ∧
    check_key_columns "mbsf_abcd" [exBene, exYear] =
      Except.error (PyErr.valueError "Missing STATE column for mbsf_abcd") ∧
    check_key_columns "mbsf_abcd" [exBene, exYear, exState] =
      Except.error (PyErr.valueError "Missing ZIP column for mbsf_abcd") ∧
    check_key_columns "medpar" [exBene, exYear, exZip, exZip2] =
      Except.error (PyErr.valueError "Duplicate column candidate for ZIP") := by
  refine ⟨?_, ?_, ?_, ?_, ?_⟩
  · exact (c5_key_errors "medpar" [] initKeyColumns exBene "" "" rfl).1 rfl
  · exact (c5_key_errors "medpar" [exBene] _ exBene "" "" rfl).2.1
      exBene rfl rfl
  · exact (c5_key_errors "mbsf_abcd" [exBene, exYear] _ exBene "" ""
      rfl).2.2.1 exBene exYear (by decide) rfl rfl rfl
  · exact (c5_key_errors "mbsf_abcd" [exBene, exYear, exState] _ exBene ""
      "" rfl).2.2.2.1 exBene exYear exState (by decide) rfl rfl rfl rfl
  · exact (c5_key_errors "medpar" [exBene, exYear, exZip] _ exZip2
      "BENE_ZIP" "ZIP" rfl).2.2.2.2 rfl (by decide) (by decide) (by decide)
